import Mathlib

/-!
Shallow embedding of src/app.py (a Flask read-only query gateway over
MongoDB) and verification of its specification.

Modelling conventions:
* BSON values stored in the database, and the JSON values of response
  bodies, are both represented by the inductive type `BVal`.
* A MongoDB document is an association list of field names to values.
* Python exceptions are modelled with `Except PyErr`; `PyErr.connFailure`
  stands for `pymongo.errors.ConnectionFailure`, `PyErr.exc msg` for any
  other exception whose `str(e)` is `msg`.  Exact messages of exceptions
  raised by CPython internals are abstracted where no claim depends on
  them.
* The YAML parser (`yaml.safe_load`) and the ObjectId constructor
  (`bson.objectid.ObjectId`) are third-party library code, not part of the
  repository; the handlers are parameterised over them
  (`yamlParse : String → Except String Yaml`,
   `parseOid : String → Option String` returning the canonical hex on
  success, `none` when the constructor raises).
* Parameter strings are treated as ASCII; Python's unicode-digit and
  unicode-whitespace corner cases are outside the model.
-/

/-- BSON-like values stored in MongoDB documents, also used for the JSON
values of response bodies. `oid` is an ObjectId carried as its 24-char hex
string, `date` an ISODate carried as a timestamp. -/
inductive BVal where
  | null
  | bool (b : Bool)
  | int (n : Int)
  | str (s : String)
  | oid (hex : String)
  | date (millis : Int)
  | arr (xs : List BVal)
  | doc (fields : List (String × BVal))

mutual
/-- Structural equality test on BSON values. -/
def beqB : BVal → BVal → Bool
  | BVal.null, BVal.null => true
  | BVal.bool x, BVal.bool y => x == y
  | BVal.int x, BVal.int y => x == y
  | BVal.str x, BVal.str y => x == y
  | BVal.oid x, BVal.oid y => x == y
  | BVal.date x, BVal.date y => x == y
  | BVal.arr xs, BVal.arr ys => beqBL xs ys
  | BVal.doc fs, BVal.doc gs => beqBF fs gs
  | _, _ => false
/-- Elementwise equality on value lists. -/
def beqBL : List BVal → List BVal → Bool
  | [], [] => true
  | x :: xs, y :: ys => beqB x y && beqBL xs ys
  | _, _ => false
/-- Elementwise equality on field lists. -/
def beqBF : List (String × BVal) → List (String × BVal) → Bool
  | [], [] => true
  | (k, v) :: xs, (k2, v2) :: ys => k == k2 && beqB v v2 && beqBF xs ys
  | _, _ => false
end

mutual
theorem beqB_eq : ∀ a b : BVal, beqB a b = true ↔ a = b
  | BVal.null, b => by cases b <;> simp [beqB]
  | BVal.bool x, b => by cases b <;> simp [beqB]
  | BVal.int x, b => by cases b <;> simp [beqB]
  | BVal.str x, b => by cases b <;> simp [beqB]
  | BVal.oid x, b => by cases b <;> simp [beqB]
  | BVal.date x, b => by cases b <;> simp [beqB]
  | BVal.arr xs, b => by
      cases b <;> simp [beqB]
      exact beqBL_eq xs _
  | BVal.doc fs, b => by
      cases b <;> simp [beqB]
      exact beqBF_eq fs _
theorem beqBL_eq : ∀ xs ys : List BVal, beqBL xs ys = true ↔ xs = ys
  | [], ys => by cases ys <;> simp [beqBL]
  | x :: xs, ys => by
      cases ys with
      | nil => simp [beqBL]
      | cons y ys => simp [beqBL, beqB_eq x y, beqBL_eq xs ys]
theorem beqBF_eq : ∀ xs ys : List (String × BVal), beqBF xs ys = true ↔ xs = ys
  | [], ys => by cases ys <;> simp [beqBF]
  | (k, v) :: xs, ys => by
      cases ys with
      | nil => simp [beqBF]
      | cons y ys =>
          cases y with
          | mk k2 v2 => simp [beqBF, beqB_eq v v2, beqBF_eq xs ys, and_assoc]
end

instance : DecidableEq BVal := fun a b => decidable_of_iff _ (beqB_eq a b)

/-- A MongoDB document: an ordered association list of fields. -/
abbrev Doc := List (String × BVal)

/-- First value bound to key `k`, like Python's `d.get(k)` returning
`None` as `none`. -/
def dGet (d : Doc) (k : String) : Option BVal :=
  (d.find? (fun kv => kv.1 == k)).map (fun kv => kv.2)

/-- Python exceptions relevant to the handlers. -/
inductive PyErr where
  | connFailure (msg : String)
  | exc (msg : String)
deriving DecidableEq

deriving instance DecidableEq for Except

/-- Python `d[k]`: the value, or a KeyError (message is the repr of the
key) when absent. -/
def getField (d : Doc) (k : String) : Except PyErr BVal :=
  match dGet d k with
  | some v => Except.ok v
  | none => Except.error (PyErr.exc ("'" ++ k ++ "'"))

/-- Python `str()` applied to a stored value: ObjectIds render as their
hex, `None` as "None".  The rendering of composite values (never reached
under the data model's typing) is abstracted. -/
def pyStr : BVal → String
  | BVal.null => "None"
  | BVal.bool b => if b then "True" else "False"
  | BVal.int n => toString n
  | BVal.str s => s
  | BVal.oid h => h
  | BVal.date m => "datetime(" ++ toString m ++ ")"
  | BVal.arr _ => "<list>"
  | BVal.doc _ => "<dict>"

/-- An HTTP response: status code and JSON body. -/
structure Response where
  status : Nat
  body : BVal
deriving DecidableEq

/-- Body `{"error": msg}` produced by `jsonify({'error': ...})`. -/
def errBody (msg : String) : BVal :=
  BVal.doc [("error", BVal.str msg)]

/-- An HTTP request: the query-string arguments, first binding wins
(Flask's `request.args.get`). -/
structure Request where
  args : List (String × String)
deriving DecidableEq

/-- Flask `request.args.get k`: first value, or `none` when absent. -/
def Request.get (r : Request) (k : String) : Option String :=
  (r.args.find? (fun kv => kv.1 == k)).map (fun kv => kv.2)

/-- The database state visible to one request: whether the server is
reachable (the `ping` in `get_mongo_client` succeeds) and the contents of
the four collections read by the app. -/
structure DB where
  conn_ok : Bool
  document : List Doc
  record : List Doc
  user : List Doc
  userGroup : List Doc
deriving DecidableEq

/-- Result of running one handler: the response together with the
connection lifecycle facts (whether `get_mongo_client` returned a client,
and whether `close_mongo_client` closed it in the `finally` block). -/
structure HandlerOutcome where
  response : Response
  acquired : Bool
  released : Bool
deriving DecidableEq

/-- `get_mongo_client` (src/app.py:13): pings the server; raises
`ConnectionFailure` when unreachable. -/
def get_mongo_client (db : DB) : Except PyErr Unit :=
  if db.conn_ok then Except.ok () else
    Except.error (PyErr.connFailure "server unreachable")

/-- The common skeleton shared by all four handlers
(src/app.py:48-111 etc.): `client = None`; `try: client =
get_mongo_client(); <body>`; `except ConnectionFailure: 500 fixed body`;
`except Exception as e: 500 {'error': str(e)}`; `finally:
close_mongo_client(client)` — which closes the client iff one was
acquired. -/
def runHandler (db : DB) (body : Unit → Except PyErr Response) : HandlerOutcome :=
  match get_mongo_client db with
  | Except.error _ =>
      { response := { status := 500, body := errBody "Failed to connect to MongoDB" },
        acquired := false, released := false }
  | Except.ok _ =>
      let resp :=
        match body () with
        | Except.ok r => r
        | Except.error (PyErr.connFailure _) =>
            { status := 500, body := errBody "Failed to connect to MongoDB" }
        | Except.error (PyErr.exc m) => { status := 500, body := errBody m }
      { response := resp, acquired := true, released := true }

/-- Python falsiness of an optional string argument: `not x` is true for
`None` and for the empty string. -/
def pyFalsyOpt : Option String → Bool
  | none => true
  | some s => s.isEmpty

/-- ASCII whitespace stripped by Python's `int` and `str.strip`. -/
def pySpace (c : Char) : Bool :=
  c == ' ' || c == '\t' || c == '\n' || c == '\r' || c == '\x0b' || c == '\x0c'

/-- Strips leading and trailing whitespace from a character list. -/
def stripChars (cs : List Char) : List Char :=
  ((cs.dropWhile pySpace).reverse.dropWhile pySpace).reverse

/-- Checks that, after an optional sign, a character list is nonempty,
consists of digits and underscores, starts and ends with a digit, and has
no two adjacent underscores — the grammar accepted by Python's `int`. -/
def digitsUTail : List Char → Bool
  | [] => true
  | '_' :: c :: rest => c.isDigit && digitsUTail rest
  | ['_'] => false
  | c :: rest => c.isDigit && digitsUTail rest

/-- Digit-group check including the required leading digit. -/
def digitsU : List Char → Bool
  | [] => false
  | c :: rest => c.isDigit && digitsUTail rest

/-- Abstraction of Python `repr` for strings free of quotes and escapes. -/
def pyRepr (s : String) : String := "'" ++ s ++ "'"

/-- Numeric value of a digit/underscore list. -/
def digitsVal (cs : List Char) : Nat :=
  (cs.filter (fun c => c != '_')).foldl (fun a c => a * 10 + (c.toNat - 48)) 0

/-- Python `int(s)` on a string: strips whitespace, accepts an optional
sign and digit groups, raises ValueError otherwise. -/
def pyInt (s0 : String) : Except PyErr Int :=
  let s := stripChars s0.toList
  let signed : Bool × List Char :=
    match s with
    | '+' :: rest => (false, rest)
    | '-' :: rest => (true, rest)
    | l => (false, l)
  if digitsU signed.2 then
    Except.ok (if signed.1 then -(digitsVal signed.2 : Int) else (digitsVal signed.2 : Int))
  else
    Except.error (PyErr.exc ("invalid literal for int() with base 10: " ++ pyRepr s0))

/-- `int(request.args.get('docType', 0))` (src/app.py:53): the default is
the integer 0, so `int` is applied to a string only when the parameter is
present. -/
def pyIntArg : Option String → Except PyErr Int
  | none => Except.ok 0
  | some s => pyInt s

/-- Mongo projection: keeps the listed fields plus `_id`. -/
def projectDoc (keys : List String) (d : Doc) : Doc :=
  d.filter (fun kv => kv.1 == "_id" || keys.contains kv.1)

/-- Filter of the `document` collection used by `get_documents`:
`{'domainId': domainId, 'docType': dt}`. -/
def docMatches (domainId : String) (dt : Int) (d : Doc) : Bool :=
  dGet d "domainId" == some (BVal.str domainId) && dGet d "docType" == some (BVal.int dt)

/-- `db.document.find(filter, projection)` as used by `get_documents`. -/
def findDocs (coll : List Doc) (domainId : String) (dt : Int) (keys : List String) : List Doc :=
  (coll.filter (docMatches domainId dt)).map (projectDoc keys)

/-- YAML values produced by `yaml.safe_load` (mapping keys restricted to
strings, numeric scalars to integers — the shapes the score computation
is specified over). -/
inductive Yaml where
  | null
  | bool (b : Bool)
  | int (n : Int)
  | str (s : String)
  | list (xs : List Yaml)
  | map (entries : List (String × Yaml))

mutual
/-- Structural equality test on YAML values. -/
def beqY : Yaml → Yaml → Bool
  | Yaml.null, Yaml.null => true
  | Yaml.bool x, Yaml.bool y => x == y
  | Yaml.int x, Yaml.int y => x == y
  | Yaml.str x, Yaml.str y => x == y
  | Yaml.list xs, Yaml.list ys => beqYL xs ys
  | Yaml.map fs, Yaml.map gs => beqYF fs gs
  | _, _ => false
/-- Elementwise equality on YAML lists. -/
def beqYL : List Yaml → List Yaml → Bool
  | [], [] => true
  | x :: xs, y :: ys => beqY x y && beqYL xs ys
  | _, _ => false
/-- Elementwise equality on YAML mapping entries. -/
def beqYF : List (String × Yaml) → List (String × Yaml) → Bool
  | [], [] => true
  | (k, v) :: xs, (k2, v2) :: ys => k == k2 && beqY v v2 && beqYF xs ys
  | _, _ => false
end

mutual
theorem beqY_eq : ∀ a b : Yaml, beqY a b = true ↔ a = b
  | Yaml.null, b => by cases b <;> simp [beqY]
  | Yaml.bool x, b => by cases b <;> simp [beqY]
  | Yaml.int x, b => by cases b <;> simp [beqY]
  | Yaml.str x, b => by cases b <;> simp [beqY]
  | Yaml.list xs, b => by
      cases b <;> simp [beqY]
      exact beqYL_eq xs _
  | Yaml.map fs, b => by
      cases b <;> simp [beqY]
      exact beqYF_eq fs _
theorem beqYL_eq : ∀ xs ys : List Yaml, beqYL xs ys = true ↔ xs = ys
  | [], ys => by cases ys <;> simp [beqYL]
  | x :: xs, ys => by
      cases ys with
      | nil => simp [beqYL]
      | cons y ys => simp [beqYL, beqY_eq x y, beqYL_eq xs ys]
theorem beqYF_eq : ∀ xs ys : List (String × Yaml), beqYF xs ys = true ↔ xs = ys
  | [], ys => by cases ys <;> simp [beqYF]
  | (k, v) :: xs, ys => by
      cases ys with
      | nil => simp [beqYF]
      | cons y ys =>
          cases y with
          | mk k2 v2 => simp [beqYF, beqY_eq v v2, beqYF_eq xs ys, and_assoc]
end

instance : DecidableEq Yaml := fun a b => decidable_of_iff _ (beqY_eq a b)

/-- Python type name of a YAML value, for exception messages. -/
def yTypeName : Yaml → String
  | Yaml.null => "NoneType"
  | Yaml.bool _ => "bool"
  | Yaml.int _ => "int"
  | Yaml.str _ => "str"
  | Yaml.list _ => "list"
  | Yaml.map _ => "dict"

/-- Python truthiness of a YAML value. -/
def yTruthy : Yaml → Bool
  | Yaml.null => false
  | Yaml.bool b => b
  | Yaml.int n => n != 0
  | Yaml.str s => !s.isEmpty
  | Yaml.list xs => !xs.isEmpty
  | Yaml.map m => !m.isEmpty

/-- Whether the first list is a prefix of the second. -/
def seqStartsWith : List Char → List Char → Bool
  | [], _ => true
  | _ :: _, [] => false
  | n :: ns, h :: hs => n == h && seqStartsWith ns hs

/-- Whether the needle occurs as a contiguous run of the haystack. -/
def seqContains (needle : List Char) : List Char → Bool
  | [] => needle.isEmpty
  | h :: hs => seqStartsWith needle (h :: hs) || seqContains needle hs

/-- Substring test, for Python's `needle in haystack` on strings. -/
def strContainsSub (hay needle : String) : Bool :=
  seqContains needle.toList hay.toList

/-- Python `k in v` (src/app.py:80): key membership for dicts, element
membership for lists, substring test for strings, TypeError otherwise. -/
def pyIn (k : String) (v : Yaml) : Except PyErr Bool :=
  match v with
  | Yaml.map m => Except.ok (m.any (fun e => e.1 == k))
  | Yaml.list xs => Except.ok (xs.contains (Yaml.str k))
  | Yaml.str s => Except.ok (strContainsSub s k)
  | other => Except.error (PyErr.exc ("argument of type '" ++ yTypeName other ++ "' is not iterable"))

/-- Python `v[k]` for a string key: dict lookup (KeyError when absent),
TypeError on every other type. -/
def ySub (v : Yaml) (k : String) : Except PyErr Yaml :=
  match v with
  | Yaml.map m =>
      match m.find? (fun e => e.1 == k) with
      | some e => Except.ok e.2
      | none => Except.error (PyErr.exc ("'" ++ k ++ "'"))
  | Yaml.list _ => Except.error (PyErr.exc "list indices must be integers or slices, not str")
  | Yaml.str _ => Except.error (PyErr.exc "string indices must be integers")
  | other => Except.error (PyErr.exc ("'" ++ yTypeName other ++ "' object is not subscriptable"))

/-- Python iteration `for x in v`: lists yield elements, strings their
characters, dicts their keys; anything else raises TypeError. In
particular iterating `None` — a present-but-null `subtasks` — raises. -/
def yIter (v : Yaml) : Except PyErr (List Yaml) :=
  match v with
  | Yaml.list xs => Except.ok xs
  | Yaml.str s => Except.ok (s.toList.map (fun c => Yaml.str (String.mk [c])))
  | Yaml.map m => Except.ok (m.map (fun e => Yaml.str e.1))
  | other => Except.error (PyErr.exc ("'" ++ yTypeName other ++ "' object is not iterable"))

/-- Python `subtask.get('score', 0)` (src/app.py:82): dict lookup with
default 0; AttributeError when the subtask is not a dict. -/
def yGetScore (v : Yaml) : Except PyErr Yaml :=
  match v with
  | Yaml.map m =>
      match m.find? (fun e => e.1 == "score") with
      | some e => Except.ok e.2
      | none => Except.ok (Yaml.int 0)
  | other => Except.error (PyErr.exc ("'" ++ yTypeName other ++ "' object has no attribute 'get'"))

/-- Python `total_score += v` on an integer accumulator: ints add, bools
coerce to 0/1, anything else raises TypeError. -/
def pyAddInt (acc : Int) (v : Yaml) : Except PyErr Int :=
  match v with
  | Yaml.int n => Except.ok (acc + n)
  | Yaml.bool b => Except.ok (acc + (if b then 1 else 0))
  | other => Except.error (PyErr.exc ("unsupported operand type(s) for +=: 'int' and '" ++ yTypeName other ++ "'"))

/-- The loop `for subtask in ...: total_score += subtask.get('score', 0)`
(src/app.py:81-82). -/
def sumLoop (acc : Int) : List Yaml → Except PyErr Int
  | [] => Except.ok acc
  | st :: rest =>
      match yGetScore st with
      | Except.error e => Except.error e
      | Except.ok sc =>
          match pyAddInt acc sc with
          | Except.error e => Except.error e
          | Except.ok acc2 => sumLoop acc2 rest

/-- The score computation over a parsed config (src/app.py:79-82):
`total_score = 0; if config_data and 'subtasks' in config_data: for
subtask in config_data['subtasks']: total_score += subtask.get('score', 0)`. -/
def sumScores (cfg : Yaml) : Except PyErr Int :=
  if yTruthy cfg then
    match pyIn "subtasks" cfg with
    | Except.error e => Except.error e
    | Except.ok hasKey =>
        if hasKey then
          match ySub cfg "subtasks" with
          | Except.error e => Except.error e
          | Except.ok sv =>
              match yIter sv with
              | Except.error e => Except.error e
              | Except.ok items => sumLoop 0 items
        else
          Except.ok 0
  else
    Except.ok 0

/-- Per-document shaping for `docType == 10` (src/app.py:76-100): parse
the config, on success emit the summed score, on `yaml.YAMLError` emit
score 0 with the error marker; any other exception (KeyError on a missing
field, TypeError from the loop) escapes to the handler's generic catch. -/
def shape10 (yamlParse : String → Except String Yaml) (d : Doc) : Except PyErr Doc :=
  match getField d "config" with
  | Except.error e => Except.error e
  | Except.ok (BVal.str s) =>
      match yamlParse s with
      | Except.ok cfg =>
          (match sumScores cfg with
           | Except.error e => Except.error e
           | Except.ok total =>
              match getField d "_id", getField d "docId",
                    getField d "title", getField d "pid" with
              | Except.ok i, Except.ok di, Except.ok t, Except.ok p =>
                  Except.ok [("_id", BVal.str (pyStr i)), ("docId", di), ("title", t),
                             ("pid", p), ("score", BVal.int total)]
              | Except.error e, _, _, _ => Except.error e
              | _, Except.error e, _, _ => Except.error e
              | _, _, Except.error e, _ => Except.error e
              | _, _, _, Except.error e => Except.error e)
      | Except.error _ =>
          match getField d "_id", getField d "docId",
                getField d "title", getField d "pid" with
          | Except.ok i, Except.ok di, Except.ok t, Except.ok p =>
              Except.ok [("_id", BVal.str (pyStr i)), ("docId", di), ("title", t),
                         ("pid", p), ("score", BVal.int 0),
                         ("error", BVal.str "Invalid config format")]
          | Except.error e, _, _, _ => Except.error e
          | _, Except.error e, _, _ => Except.error e
          | _, _, Except.error e, _ => Except.error e
          | _, _, _, Except.error e => Except.error e
  | Except.ok other =>
      Except.error (PyErr.exc ("yaml.safe_load expects a string, got " ++ pyStr other))

/-- Per-document shaping for `docType == 30` (src/app.py:63-69):
`_id` and `docId` coerced through `str`, `title` required, `beginAt` and
`pids` via `.get` with defaults `None` and `[]`. -/
def shape30 (d : Doc) : Except PyErr Doc :=
  match getField d "_id", getField d "title" with
  | Except.ok i, Except.ok t =>
      Except.ok [("_id", BVal.str (pyStr i)),
                 ("docId", BVal.str (pyStr ((dGet d "docId").getD BVal.null))),
                 ("title", t),
                 ("beginAt", (dGet d "beginAt").getD BVal.null),
                 ("pids", (dGet d "pids").getD (BVal.arr []))]
  | Except.error e, _ => Except.error e
  | _, Except.error e => Except.error e

/-- The accumulation of shaped items in document order, aborting on the
first escaping exception — Python's `result.append` loops and list
comprehensions. -/
def mapME (f : Doc → Except PyErr Doc) : List Doc → Except PyErr (List Doc)
  | [] => Except.ok []
  | d :: rest =>
      match f d with
      | Except.error e => Except.error e
      | Except.ok it =>
          match mapME f rest with
          | Except.error e => Except.error e
          | Except.ok items => Except.ok (it :: items)

/-- Body of `get_documents` (src/app.py:36-105), after the client has been
acquired: read `domainId`, convert `docType` with `int` (line 53, before
the `domainId` validation on line 55), then branch on the doc type. -/
def get_documents_body (yamlParse : String → Except String Yaml)
    (db : DB) (req : Request) : Except PyErr Response :=
  let domain_id := req.get "domainId"
  match pyIntArg (req.get "docType") with
  | Except.error e => Except.error e
  | Except.ok doc_type =>
      if pyFalsyOpt domain_id then
        Except.ok { status := 400, body := errBody "domainId is required" }
      else
        let dom := domain_id.getD ""
        if doc_type == 30 then
          match mapME shape30 (findDocs db.document dom 30 ["docId", "title", "beginAt", "pids"]) with
          | Except.error e => Except.error e
          | Except.ok items => Except.ok { status := 200, body := BVal.arr (items.map BVal.doc) }
        else if doc_type == 10 then
          match mapME (shape10 yamlParse) (findDocs db.document dom 10 ["docId", "title", "pid", "config"]) with
          | Except.error e => Except.error e
          | Except.ok items => Except.ok { status := 200, body := BVal.arr (items.map BVal.doc) }
        else
          Except.ok { status := 400, body := errBody "Invalid docType" }

/-- The `/hydro/document` handler. -/
def get_documents (yamlParse : String → Except String Yaml)
    (db : DB) (req : Request) : HandlerOutcome :=
  runHandler db (fun _ => get_documents_body yamlParse db req)

/-- Filter of the `record` collection used by `get_records`:
`{'domainId': dom, 'contest': ObjectId(hex)}`. -/
def recordFilter (dom oidHex : String) (r : Doc) : Bool :=
  dGet r "domainId" == some (BVal.str dom) && dGet r "contest" == some (BVal.oid oidHex)

/-- Per-record shaping (src/app.py:142-149). -/
def shapeRecord (r : Doc) : Except PyErr Doc :=
  match getField r "_id", getField r "status", getField r "uid",
        getField r "pid", getField r "score" with
  | Except.ok i, Except.ok st, Except.ok uid, Except.ok pid, Except.ok sc =>
      Except.ok [("_id", BVal.str (pyStr i)), ("status", st), ("uid", uid),
                 ("pid", pid), ("score", sc),
                 ("judgeAt", (dGet r "judgeAt").getD BVal.null)]
  | Except.error e, _, _, _, _ => Except.error e
  | _, Except.error e, _, _, _ => Except.error e
  | _, _, Except.error e, _, _ => Except.error e
  | _, _, _, Except.error e, _ => Except.error e
  | _, _, _, _, Except.error e => Except.error e

/-- Body of `get_records` (src/app.py:114-150): validate `domainId`, then
`contest`, then parse the ObjectId, then query and shape. -/
def get_records_body (parseOid : String → Option String)
    (db : DB) (req : Request) : Except PyErr Response :=
  let domain_id := req.get "domainId"
  let contest := req.get "contest"
  if pyFalsyOpt domain_id then
    Except.ok { status := 400, body := errBody "domainId is required" }
  else if pyFalsyOpt contest then
    Except.ok { status := 400, body := errBody "contest is required" }
  else
    match parseOid (contest.getD "") with
    | none => Except.ok { status := 400, body := errBody "Invalid contest ObjectId" }
    | some oidHex =>
        match mapME shapeRecord ((db.record.filter (recordFilter (domain_id.getD "") oidHex)).map
            (projectDoc ["status", "uid", "pid", "score", "judgeAt"])) with
        | Except.error e => Except.error e
        | Except.ok items => Except.ok { status := 200, body := BVal.arr (items.map BVal.doc) }

/-- The `/hydro/record` handler. -/
def get_records (parseOid : String → Option String)
    (db : DB) (req : Request) : HandlerOutcome :=
  runHandler db (fun _ => get_records_body parseOid db req)

/-- Python `s.isdigit()` on ASCII strings: nonempty and all digits. -/
def pyIsDigitStr (s : String) : Bool :=
  !s.isEmpty && s.toList.all Char.isDigit

/-- `int(s)` for an all-digit string. -/
def pyIntOfDigits (s : String) : Int :=
  (s.toList.foldl (fun a c => a * 10 + (c.toNat - 48)) 0 : Nat)

/-- Body of `get_user` (src/app.py:159-184): validate presence and
digit-ness of `_id`, then `find_one` on the numeric key and emit `uname`. -/
def get_user_body (db : DB) (req : Request) : Except PyErr Response :=
  let user_id := req.get "_id"
  if pyFalsyOpt user_id then
    Except.ok { status := 400, body := errBody "_id is required" }
  else
    let s := user_id.getD ""
    if !pyIsDigitStr s then
      Except.ok { status := 400, body := errBody "_id must be an integer" }
    else
      match db.user.find? (fun d => dGet d "_id" == some (BVal.int (pyIntOfDigits s))) with
      | some u =>
          match getField (projectDoc ["uname"] u) "uname" with
          | Except.error e => Except.error e
          | Except.ok un => Except.ok { status := 200, body := BVal.doc [("uname", un)] }
      | none => Except.ok { status := 404, body := errBody "User not found" }

/-- The `/hydro/user` handler. -/
def get_user (db : DB) (req : Request) : HandlerOutcome :=
  runHandler db (fun _ => get_user_body db req)

/-- Per-group shaping (src/app.py:212-216). -/
def shapeGroup (g : Doc) : Except PyErr Doc :=
  match getField g "_id", getField g "name" with
  | Except.ok i, Except.ok nm =>
      Except.ok [("_id", BVal.str (pyStr i)), ("name", nm),
                 ("uids", (dGet g "uids").getD (BVal.arr []))]
  | Except.error e, _ => Except.error e
  | _, Except.error e => Except.error e

/-- Body of `get_user_groups` (src/app.py:193-217). -/
def get_user_groups_body (db : DB) (req : Request) : Except PyErr Response :=
  let domain_id := req.get "domainId"
  if pyFalsyOpt domain_id then
    Except.ok { status := 400, body := errBody "domainId is required" }
  else
    match mapME shapeGroup ((db.userGroup.filter
        (fun g => dGet g "domainId" == some (BVal.str (domain_id.getD "")))).map
      (projectDoc ["name", "uids"])) with
    | Except.error e => Except.error e
    | Except.ok items => Except.ok { status := 200, body := BVal.arr (items.map BVal.doc) }

/-- The `/hydro/user/group` handler. -/
def get_user_groups (db : DB) (req : Request) : HandlerOutcome :=
  runHandler db (fun _ => get_user_groups_body db req)

mutual
/-- Whether Flask's `jsonify` can serialize a value: everything in the
model except raw ObjectIds (Flask's JSON provider handles datetimes but
not `bson.ObjectId`). -/
def serializableB : BVal → Bool
  | BVal.oid _ => false
  | BVal.arr xs => serializableL xs
  | BVal.doc fs => serializableF fs
  | _ => true
/-- Serializability of every element of a list. -/
def serializableL : List BVal → Bool
  | [] => true
  | v :: rest => serializableB v && serializableL rest
/-- Serializability of every field value. -/
def serializableF : List (String × BVal) → Bool
  | [] => true
  | (_, v) :: rest => serializableB v && serializableF rest
end

mutual
/-- JSON rendering of a response body, to make "byte-identical responses"
statable.  String escaping and the datetime rendering are abstracted (both
are deterministic functions of the value); ObjectIds never occur in a
serializable body. -/
def jsonEncode : BVal → String
  | BVal.null => "null"
  | BVal.bool b => if b then "true" else "false"
  | BVal.int n => toString n
  | BVal.str s => "\"" ++ s ++ "\""
  | BVal.oid h => "\"oid:" ++ h ++ "\""
  | BVal.date m => "\"datetime:" ++ toString m ++ "\""
  | BVal.arr xs => "[" ++ jsonEncodeL xs ++ "]"
  | BVal.doc fs => "\x7b" ++ jsonEncodeF fs ++ "\x7d"
/-- Comma-separated rendering of array elements. -/
def jsonEncodeL : List BVal → String
  | [] => ""
  | [v] => jsonEncode v
  | v :: rest => jsonEncode v ++ "," ++ jsonEncodeL rest
/-- Comma-separated rendering of object fields. -/
def jsonEncodeF : List (String × BVal) → String
  | [] => ""
  | [(k, v)] => "\"" ++ k ++ "\":" ++ jsonEncode v
  | (k, v) :: rest => "\"" ++ k ++ "\":" ++ jsonEncode v ++ "," ++ jsonEncodeF rest
end

/-- Score contributed by one subtasks entry according to the
specification: the entry's `score` value, 0 when absent. -/
def specEntryScore : Yaml → Int
  | Yaml.map em =>
      match em.find? (fun e => e.1 == "score") with
      | some e =>
          match e.2 with
          | Yaml.int n => n
          | _ => 0
      | none => 0
  | _ => 0

/-- Sum of the subtask scores as the specification words it: the sum over
`subtasks[].score` with absent scores counted as 0 and an absent
`subtasks` key — or a config that did not parse to a mapping — as the
empty list. -/
def specSubtaskSum : Yaml → Int
  | Yaml.map m =>
      match m.find? (fun e => e.1 == "subtasks") with
      | some e =>
          match e.2 with
          | Yaml.list xs => (xs.map specEntryScore).sum
          | _ => 0
      | none => 0
  | _ => 0

/-- A subtasks entry on which the score loop cannot raise: a mapping
whose `score` value, when present, is an integer. -/
def entryBenign : Yaml → Bool
  | Yaml.map em =>
      match em.find? (fun e => e.1 == "score") with
      | some e =>
          match e.2 with
          | Yaml.int _ => true
          | _ => false
      | none => true
  | _ => false

/-- A parsed config on which the score computation cannot raise: either
Python-falsy, or a mapping whose `subtasks` key is absent or bound to a
list of benign entries. -/
def cfgBenign : Yaml → Bool
  | Yaml.map m =>
      match m.find? (fun e => e.1 == "subtasks") with
      | some e =>
          match e.2 with
          | Yaml.list xs => xs.all entryBenign
          | _ => false
      | none => true
  | cfg => !(yTruthy cfg)

/-- Normal form of the item emitted for a `docType == 30` document whose
required fields are present. -/
def shape30item (d : Doc) : Doc :=
  [("_id", BVal.str (pyStr ((dGet d "_id").getD BVal.null))),
   ("docId", BVal.str (pyStr ((dGet d "docId").getD BVal.null))),
   ("title", (dGet d "title").getD BVal.null),
   ("beginAt", (dGet d "beginAt").getD BVal.null),
   ("pids", (dGet d "pids").getD (BVal.arr []))]

/-- Normal form of the item emitted for a `docType == 10` document whose
config parsed, given the computed total score. -/
def item10ok (d : Doc) (total : Int) : Doc :=
  [("_id", BVal.str (pyStr ((dGet d "_id").getD BVal.null))),
   ("docId", (dGet d "docId").getD BVal.null),
   ("title", (dGet d "title").getD BVal.null),
   ("pid", (dGet d "pid").getD BVal.null),
   ("score", BVal.int total)]

/-- Normal form of the item emitted for a `docType == 10` document whose
config failed to parse. -/
def item10err (d : Doc) : Doc :=
  [("_id", BVal.str (pyStr ((dGet d "_id").getD BVal.null))),
   ("docId", (dGet d "docId").getD BVal.null),
   ("title", (dGet d "title").getD BVal.null),
   ("pid", (dGet d "pid").getD BVal.null),
   ("score", BVal.int 0),
   ("error", BVal.str "Invalid config format")]

/-- The item emitted for a ready `docType == 10` document. -/
def shape10item (yamlParse : String → Except String Yaml) (d : Doc) : Doc :=
  match dGet d "config" with
  | some (BVal.str s) =>
      match yamlParse s with
      | Except.ok cfg => item10ok d (specSubtaskSum cfg)
      | Except.error _ => item10err d
  | _ => []

/-- A `docType == 10` document the handler is specified over: the emitted
fields are present and serializable, the config is a string, and a config
that parses does so to a benign value. -/
def doc10Ready (yamlParse : String → Except String Yaml) (d : Doc) : Bool :=
  (dGet d "_id").isSome &&
  (match dGet d "docId" with
   | some v => serializableB v
   | none => false) &&
  (match dGet d "title" with
   | some v => serializableB v
   | none => false) &&
  (match dGet d "pid" with
   | some v => serializableB v
   | none => false) &&
  (match dGet d "config" with
   | some (BVal.str s) =>
       match yamlParse s with
       | Except.ok cfg => cfgBenign cfg
       | Except.error _ => true
   | _ => false)

/-- A `docType == 30` document the handler is specified over: `_id`
present, `title` a string, `pids` absent or a serializable list, `beginAt`
absent or serializable. -/
def doc30Ready (d : Doc) : Bool :=
  (dGet d "_id").isSome &&
  (match dGet d "title" with
   | some (BVal.str _) => true
   | _ => false) &&
  (match dGet d "pids" with
   | none => true
   | some (BVal.arr xs) => serializableL xs
   | _ => false) &&
  (match dGet d "beginAt" with
   | none => true
   | some v => serializableB v)

theorem dGet_projectDoc (keys : List String) (d : Doc) (k : String)
    (h : (k == "_id" || keys.contains k) = true) :
    dGet (projectDoc keys d) k = dGet d k := by
  induction d with
  | nil => rfl
  | cons kv rest ih =>
      rw [projectDoc, List.filter_cons]
      by_cases hk : (kv.1 == k) = true
      · have hkeq : kv.1 = k := eq_of_beq hk
        have hkv : (kv.1 == "_id" || keys.contains kv.1) = true := by
          rw [hkeq]; exact h
        simp only [hkv, if_true, dGet, List.find?, hk]
      · have hk2 : (kv.1 == k) = false := by
          cases hkv2 : kv.1 == k
          · rfl
          · exact absurd hkv2 hk
        by_cases hkv : (kv.1 == "_id" || keys.contains kv.1) = true
        · simp only [hkv, if_true, dGet, List.find?, hk2]
          exact ih
        · simp only [Bool.not_eq_true] at hkv
          simp only [hkv, Bool.false_eq_true, if_false, dGet, List.find?, hk2]
          exact ih

theorem getField_projectDoc (keys : List String) (d : Doc) (k : String)
    (h : (k == "_id" || keys.contains k) = true) :
    getField (projectDoc keys d) k = getField d k := by
  rw [getField, getField, dGet_projectDoc keys d k h]

theorem shape30_project (d : Doc) :
    shape30 (projectDoc ["docId", "title", "beginAt", "pids"] d) = shape30 d := by
  rw [shape30, shape30,
      getField_projectDoc ["docId", "title", "beginAt", "pids"] d "_id" (by decide),
      getField_projectDoc ["docId", "title", "beginAt", "pids"] d "title" (by decide),
      dGet_projectDoc ["docId", "title", "beginAt", "pids"] d "docId" (by decide),
      dGet_projectDoc ["docId", "title", "beginAt", "pids"] d "beginAt" (by decide),
      dGet_projectDoc ["docId", "title", "beginAt", "pids"] d "pids" (by decide)]

theorem shape10_project (yamlParse : String → Except String Yaml) (d : Doc) :
    shape10 yamlParse (projectDoc ["docId", "title", "pid", "config"] d) = shape10 yamlParse d := by
  rw [shape10, shape10,
      getField_projectDoc ["docId", "title", "pid", "config"] d "config" (by decide),
      getField_projectDoc ["docId", "title", "pid", "config"] d "_id" (by decide),
      getField_projectDoc ["docId", "title", "pid", "config"] d "docId" (by decide),
      getField_projectDoc ["docId", "title", "pid", "config"] d "title" (by decide),
      getField_projectDoc ["docId", "title", "pid", "config"] d "pid" (by decide)]

theorem shapeRecord_project (r : Doc) :
    shapeRecord (projectDoc ["status", "uid", "pid", "score", "judgeAt"] r) = shapeRecord r := by
  rw [shapeRecord, shapeRecord,
      getField_projectDoc ["status", "uid", "pid", "score", "judgeAt"] r "_id" (by decide),
      getField_projectDoc ["status", "uid", "pid", "score", "judgeAt"] r "status" (by decide),
      getField_projectDoc ["status", "uid", "pid", "score", "judgeAt"] r "uid" (by decide),
      getField_projectDoc ["status", "uid", "pid", "score", "judgeAt"] r "pid" (by decide),
      getField_projectDoc ["status", "uid", "pid", "score", "judgeAt"] r "score" (by decide),
      dGet_projectDoc ["status", "uid", "pid", "score", "judgeAt"] r "judgeAt" (by decide)]

theorem mapME_map_ok (f : Doc → Except PyErr Doc) (g p : Doc → Doc) :
    ∀ l : List Doc, (∀ d ∈ l, f (p d) = Except.ok (g d)) →
      mapME f (l.map p) = Except.ok (l.map g)
  | [], _ => rfl
  | d :: rest, h => by
      have hd : f (p d) = Except.ok (g d) := h d (by simp)
      have hrest : mapME f (rest.map p) = Except.ok (rest.map g) :=
        mapME_map_ok f g p rest (fun x hx => h x (by simp [hx]))
      simp [mapME, List.map_cons, hd, hrest]

theorem sumLoop_benign :
    ∀ (xs : List Yaml) (acc : Int), xs.all entryBenign = true →
      sumLoop acc xs = Except.ok (acc + (xs.map specEntryScore).sum)
  | [], acc, _ => by simp [sumLoop]
  | x :: rest, acc, h => by
      have hx : entryBenign x = true := by
        have := h
        simp only [List.all_cons, Bool.and_eq_true] at this
        exact this.1
      have hrest : rest.all entryBenign = true := by
        have := h
        simp only [List.all_cons, Bool.and_eq_true] at this
        exact this.2
      cases x with
      | map em =>
          cases hfind : em.find? (fun e => e.1 == "score") with
          | none =>
              have hrec := sumLoop_benign rest (acc + 0) hrest
              simp only [sumLoop, yGetScore, hfind, pyAddInt, hrec,
                List.map_cons, List.sum_cons, specEntryScore]
              rw [Int.add_zero, Int.zero_add]
          | some e =>
              cases he : e.2 with
              | int n =>
                  have hrec := sumLoop_benign rest (acc + n) hrest
                  simp only [sumLoop, yGetScore, hfind, he, pyAddInt, hrec,
                    List.map_cons, List.sum_cons, specEntryScore]
                  rw [Int.add_assoc]
              | null => simp [entryBenign, hfind, he] at hx
              | bool b => simp [entryBenign, hfind, he] at hx
              | str s => simp [entryBenign, hfind, he] at hx
              | list ys => simp [entryBenign, hfind, he] at hx
              | map m2 => simp [entryBenign, hfind, he] at hx
      | null => simp [entryBenign] at hx
      | bool b => simp [entryBenign] at hx
      | int n => simp [entryBenign] at hx
      | str s => simp [entryBenign] at hx
      | list ys => simp [entryBenign] at hx

theorem sumScores_benign (cfg : Yaml) (h : cfgBenign cfg = true) :
    sumScores cfg = Except.ok (specSubtaskSum cfg) := by
  cases cfg with
  | null => rfl
  | bool b =>
      have hb : yTruthy (Yaml.bool b) = false := by
        simpa [cfgBenign] using h
      simp [sumScores, specSubtaskSum, hb]
  | int n =>
      have hb : yTruthy (Yaml.int n) = false := by
        simpa [cfgBenign] using h
      simp [sumScores, specSubtaskSum, hb]
  | str s =>
      have hb : yTruthy (Yaml.str s) = false := by
        simpa [cfgBenign] using h
      simp [sumScores, specSubtaskSum, hb]
  | list xs =>
      have hb : yTruthy (Yaml.list xs) = false := by
        simpa [cfgBenign] using h
      simp [sumScores, specSubtaskSum, hb]
  | map m =>
      cases m with
      | nil => rfl
      | cons kv rest =>
          have htr : yTruthy (Yaml.map (kv :: rest)) = true := by simp [yTruthy]
          cases hfind : (kv :: rest).find? (fun e => e.1 == "subtasks") with
          | none =>
              have hnone : ∀ x ∈ kv :: rest, ¬ (fun e => e.1 == "subtasks") x = true :=
                List.find?_eq_none.mp hfind
              have hany : (kv :: rest).any (fun e => e.1 == "subtasks") = false := by
                cases ha : (kv :: rest).any (fun e => e.1 == "subtasks")
                · rfl
                · obtain ⟨e, hmem, he⟩ := List.any_eq_true.mp ha
                  exact absurd he (hnone e hmem)
              simp [sumScores, specSubtaskSum, htr, pyIn, hany, hfind]
          | some e =>
              have hpe := List.find?_some hfind
              have hany : (kv :: rest).any (fun e => e.1 == "subtasks") = true :=
                List.any_eq_true.mpr ⟨e, List.mem_of_find?_eq_some hfind, hpe⟩
              have hbenign : (match e.2 with
                  | Yaml.list xs => xs.all entryBenign
                  | _ => false) = true := by
                have h2 := h
                rw [cfgBenign, hfind] at h2
                exact h2
              cases he2 : e.2 with
              | list xs =>
                  rw [he2] at hbenign
                  rw [sumScores]
                  simp only [htr, if_true, pyIn, hany, ySub, hfind, he2, yIter]
                  rw [sumLoop_benign xs 0 hbenign, Int.zero_add, specSubtaskSum]
                  simp only [hfind, he2]
              | null => rw [he2] at hbenign; exact Bool.noConfusion hbenign
              | bool b => rw [he2] at hbenign; exact Bool.noConfusion hbenign
              | int n => rw [he2] at hbenign; exact Bool.noConfusion hbenign
              | str s2 => rw [he2] at hbenign; exact Bool.noConfusion hbenign
              | map m2 => rw [he2] at hbenign; exact Bool.noConfusion hbenign

theorem shape30_ready (d : Doc) (h : doc30Ready d = true) :
    shape30 d = Except.ok (shape30item d) := by
  rw [doc30Ready] at h
  simp only [Bool.and_eq_true] at h
  obtain ⟨⟨⟨hid, htitle⟩, _⟩, _⟩ := h
  obtain ⟨iv, hiv⟩ := Option.isSome_iff_exists.mp hid
  have ht : ∃ t, dGet d "title" = some (BVal.str t) := by
    cases hv : dGet d "title" with
    | none => rw [hv] at htitle; exact Bool.noConfusion htitle
    | some v =>
        cases v with
        | str t => exact ⟨t, rfl⟩
        | null => rw [hv] at htitle; exact Bool.noConfusion htitle
        | bool b => rw [hv] at htitle; exact Bool.noConfusion htitle
        | int n => rw [hv] at htitle; exact Bool.noConfusion htitle
        | oid x => rw [hv] at htitle; exact Bool.noConfusion htitle
        | date m => rw [hv] at htitle; exact Bool.noConfusion htitle
        | arr xs => rw [hv] at htitle; exact Bool.noConfusion htitle
        | doc fs => rw [hv] at htitle; exact Bool.noConfusion htitle
  obtain ⟨t, ht⟩ := ht
  rw [shape30, getField, getField, hiv, ht, shape30item, hiv, ht]
  simp only [Option.getD_some]

theorem shape10_ready (yp : String → Except String Yaml) (d : Doc)
    (h : doc10Ready yp d = true) :
    shape10 yp d = Except.ok (shape10item yp d) := by
  rw [doc10Ready] at h
  simp only [Bool.and_eq_true] at h
  obtain ⟨⟨⟨⟨hid, hdocId⟩, htitle⟩, hpid⟩, hcfg⟩ := h
  obtain ⟨iv, hiv⟩ := Option.isSome_iff_exists.mp hid
  have hdv : ∃ dv, dGet d "docId" = some dv := by
    cases hv : dGet d "docId" with
    | none => rw [hv] at hdocId; exact Bool.noConfusion hdocId
    | some v => exact ⟨v, rfl⟩
  obtain ⟨dv, hdv⟩ := hdv
  have htv : ∃ tv, dGet d "title" = some tv := by
    cases hv : dGet d "title" with
    | none => rw [hv] at htitle; exact Bool.noConfusion htitle
    | some v => exact ⟨v, rfl⟩
  obtain ⟨tv, htv⟩ := htv
  have hpv : ∃ pv, dGet d "pid" = some pv := by
    cases hv : dGet d "pid" with
    | none => rw [hv] at hpid; exact Bool.noConfusion hpid
    | some v => exact ⟨v, rfl⟩
  obtain ⟨pv, hpv⟩ := hpv
  have hcs : ∃ s, dGet d "config" = some (BVal.str s) := by
    cases hv : dGet d "config" with
    | none => rw [hv] at hcfg; exact Bool.noConfusion hcfg
    | some v =>
        cases v with
        | str s => exact ⟨s, rfl⟩
        | null => rw [hv] at hcfg; exact Bool.noConfusion hcfg
        | bool b => rw [hv] at hcfg; exact Bool.noConfusion hcfg
        | int n => rw [hv] at hcfg; exact Bool.noConfusion hcfg
        | oid x => rw [hv] at hcfg; exact Bool.noConfusion hcfg
        | date m => rw [hv] at hcfg; exact Bool.noConfusion hcfg
        | arr xs => rw [hv] at hcfg; exact Bool.noConfusion hcfg
        | doc fs => rw [hv] at hcfg; exact Bool.noConfusion hcfg
  obtain ⟨s, hcs⟩ := hcs
  rw [hcs] at hcfg
  have hcfg2 : (match yp s with
      | Except.ok cfg => cfgBenign cfg
      | Except.error _ => true) = true := hcfg
  cases hyp : yp s with
  | ok cfg =>
      rw [hyp] at hcfg2
      have hsum : sumScores cfg = Except.ok (specSubtaskSum cfg) :=
        sumScores_benign cfg hcfg2
      simp only [shape10, getField, hcs, hyp, hsum, hiv, hdv, htv, hpv,
        shape10item, item10ok, Option.getD_some]
  | error msg =>
      simp only [shape10, getField, hcs, hyp, hiv, hdv, htv, hpv,
        shape10item, item10err, Option.getD_some]

theorem runHandler_down (db : DB) (body : Unit → Except PyErr Response)
    (hc : db.conn_ok = false) :
    runHandler db body =
      { response := { status := 500, body := errBody "Failed to connect to MongoDB" },
        acquired := false, released := false } := by
  rw [runHandler, get_mongo_client, hc]
  simp only [Bool.false_eq_true, if_false]

theorem runHandler_ok_response (db : DB) (body : Unit → Except PyErr Response)
    (r : Response) (hc : db.conn_ok = true) (hb : body () = Except.ok r) :
    (runHandler db body).response = r := by
  rw [runHandler, get_mongo_client, hc]
  simp only [if_true, hb]

theorem runHandler_exc_response (db : DB) (body : Unit → Except PyErr Response)
    (m : String) (hc : db.conn_ok = true) (hb : body () = Except.error (PyErr.exc m)) :
    (runHandler db body).response = { status := 500, body := errBody m } := by
  rw [runHandler, get_mongo_client, hc]
  simp only [if_true, hb]

theorem runHandler_release (db : DB) (body : Unit → Except PyErr Response) :
    (runHandler db body).released = (runHandler db body).acquired := by
  cases hc : db.conn_ok
  · rw [runHandler_down db body hc]
  · rw [runHandler, get_mongo_client, hc]
    simp only [if_true]

theorem isEmpty_false_of_ne_empty (s : String) (h : s ≠ "") : s.isEmpty = false := by
  cases he : s.isEmpty
  · rfl
  · exact absurd ((String.isEmpty_iff s).mp he) h

/-- C4: on every route, a failed connection acquisition yields exactly
status 500 with body `{"error": "Failed to connect to MongoDB"}` from the
single attempt, and on every exit path the connection is closed in the
`finally` block exactly when one was acquired. -/
theorem connection_failure_500_and_release
    (yp : String → Except String Yaml) (po : String → Option String)
    (db : DB) (req : Request) :
    (db.conn_ok = false →
      (get_documents yp db req).response =
        { status := 500, body := errBody "Failed to connect to MongoDB" } ∧
      (get_records po db req).response =
        { status := 500, body := errBody "Failed to connect to MongoDB" } ∧
      (get_user db req).response =
        { status := 500, body := errBody "Failed to connect to MongoDB" } ∧
      (get_user_groups db req).response =
        { status := 500, body := errBody "Failed to connect to MongoDB" }) ∧
    ((get_documents yp db req).released = (get_documents yp db req).acquired ∧
     (get_records po db req).released = (get_records po db req).acquired ∧
     (get_user db req).released = (get_user db req).acquired ∧
     (get_user_groups db req).released = (get_user_groups db req).acquired) := by
  constructor
  · intro hc
    refine ⟨?_, ?_, ?_, ?_⟩
    · rw [get_documents, runHandler_down db _ hc]
    · rw [get_records, runHandler_down db _ hc]
    · rw [get_user, runHandler_down db _ hc]
    · rw [get_user_groups, runHandler_down db _ hc]
  · exact ⟨runHandler_release db _, runHandler_release db _,
      runHandler_release db _, runHandler_release db _⟩

theorem connection_failure_500_and_release_witness :
    ({ conn_ok := false, document := [], record := [], user := [], userGroup := [] } : DB).conn_ok = false ∧
    (get_documents (fun _ => Except.error "e")
        { conn_ok := false, document := [], record := [], user := [], userGroup := [] }
        { args := [] }).response =
      { status := 500, body := errBody "Failed to connect to MongoDB" } := by
  have h := connection_failure_500_and_release (fun _ => Except.error "e") (fun _ => none)
    { conn_ok := false, document := [], record := [], user := [], userGroup := [] }
    { args := [] }
  exact ⟨rfl, (h.1 rfl).1⟩

/-- C8: on the document route, once the connection and the parameter
conversion succeed and `domainId` is non-falsy, every `docType` other than
10 and 30 — including the default 0 taken when the parameter is omitted —
yields 400 `{"error": "Invalid docType"}`. -/
theorem invalid_docType_400 (yp : String → Except String Yaml)
    (db : DB) (req : Request) (n : Int)
    (hc : db.conn_ok = true)
    (hdom : pyFalsyOpt (req.get "domainId") = false)
    (ht : pyIntArg (req.get "docType") = Except.ok n)
    (h10 : n ≠ 10) (h30 : n ≠ 30) :
    (get_documents yp db req).response =
      { status := 400, body := errBody "Invalid docType" } := by
  have e30 : (n == 30) = false := beq_eq_false_iff_ne.mpr h30
  have e10 : (n == 10) = false := beq_eq_false_iff_ne.mpr h10
  have hbody : get_documents_body yp db req =
      Except.ok { status := 400, body := errBody "Invalid docType" } := by
    rw [get_documents_body]
    simp only [ht, hdom, Bool.false_eq_true, if_false, e30, e10]
  rw [get_documents]
  exact runHandler_ok_response db _ _ hc hbody

theorem invalid_docType_400_witness :
    (get_documents (fun _ => Except.error "e")
        { conn_ok := true, document := [], record := [], user := [], userGroup := [] }
        { args := [("domainId", "d")] }).response =
      { status := 400, body := errBody "Invalid docType" } :=
  invalid_docType_400 (fun _ => Except.error "e")
    { conn_ok := true, document := [], record := [], user := [], userGroup := [] }
    { args := [("domainId", "d")] } 0 rfl (by decide) (by decide)
    (by decide) (by decide)

/-- C10: on the document route the `int` conversion of `docType`
(line 53) runs before the `domainId` validation (line 55), so a
non-integer `docType` makes the whole request fail with status 500 and the
ValueError's message — regardless of `domainId`, present or missing — and
the 400 responses are never produced in that case. -/
theorem docType_conversion_precedes_validation
    (yp : String → Except String Yaml) (db : DB) (req : Request) (s m : String)
    (hc : db.conn_ok = true)
    (harg : req.get "docType" = some s)
    (hbad : pyInt s = Except.error (PyErr.exc m)) :
    (get_documents yp db req).response = { status := 500, body := errBody m } := by
  have hbody : get_documents_body yp db req = Except.error (PyErr.exc m) := by
    rw [get_documents_body]
    simp only [harg, pyIntArg, hbad]
  rw [get_documents]
  exact runHandler_exc_response db _ m hc hbody

theorem docType_conversion_precedes_validation_witness :
    ({ args := [("docType", "abc")] } : Request).get "domainId" = none ∧
    (get_documents (fun _ => Except.error "e")
        { conn_ok := true, document := [], record := [], user := [], userGroup := [] }
        { args := [("docType", "abc")] }).response =
      { status := 500, body := errBody "invalid literal for int() with base 10: 'abc'" } :=
  ⟨rfl, docType_conversion_precedes_validation (fun _ => Except.error "e")
    { conn_ok := true, document := [], record := [], user := [], userGroup := [] }
    { args := [("docType", "abc")] } "abc"
    "invalid literal for int() with base 10: 'abc'" rfl rfl (by decide)⟩

/-- Database state with the server unreachable and all collections empty,
used as the counterexample input. -/
def dbDownEx : DB :=
  { conn_ok := false, document := [], record := [], user := [], userGroup := [] }

/-- The empty request: every parameter is missing. -/
def reqEmptyEx : Request := { args := [] }

/-- A parser stub used where the parser is irrelevant. -/
def ypNoneEx : String → Except String Yaml := fun _ => Except.error "unused"

/-- C3 counterexample: a request to the document route with `domainId`
missing, made while the database is unreachable, answers 500 with the
connection error — not the documented 400 — because the connection is
acquired before any parameter validation runs. -/
theorem missing_param_conn_down_500 :
    reqEmptyEx.get "domainId" = none ∧
    (get_documents ypNoneEx dbDownEx reqEmptyEx).response.status = 500 ∧
    (get_documents ypNoneEx dbDownEx reqEmptyEx).response ≠
      { status := 400, body := errBody "domainId is required" } := by
  refine ⟨rfl, rfl, ?_⟩
  decide

/-- C3 amended: once the connection has been acquired (and, on the
document route, once the `docType` conversion succeeded), a request
missing a required parameter answers 400 with exactly the documented
per-field message, for every database content — the validation runs before
the query and short-circuits. -/
theorem missing_param_400_after_conn
    (yp : String → Except String Yaml) (po : String → Option String)
    (db : DB) (req : Request) (hc : db.conn_ok = true) :
    (req.get "domainId" = none → (pyIntArg (req.get "docType")).isOk = true →
      (get_documents yp db req).response =
        { status := 400, body := errBody "domainId is required" }) ∧
    (req.get "domainId" = none →
      (get_records po db req).response =
        { status := 400, body := errBody "domainId is required" }) ∧
    (pyFalsyOpt (req.get "domainId") = false → req.get "contest" = none →
      (get_records po db req).response =
        { status := 400, body := errBody "contest is required" }) ∧
    (req.get "_id" = none →
      (get_user db req).response =
        { status := 400, body := errBody "_id is required" }) ∧
    (req.get "domainId" = none →
      (get_user_groups db req).response =
        { status := 400, body := errBody "domainId is required" }) := by
  refine ⟨?_, ?_, ?_, ?_, ?_⟩
  · intro hdom hok
    cases hint : pyIntArg (req.get "docType") with
    | error e => rw [hint] at hok; exact Bool.noConfusion hok
    | ok n =>
        have hbody : get_documents_body yp db req =
            Except.ok { status := 400, body := errBody "domainId is required" } := by
          rw [get_documents_body]
          simp only [hint, hdom, pyFalsyOpt, if_true]
        rw [get_documents]
        exact runHandler_ok_response db _ _ hc hbody
  · intro hdom
    have hbody : get_records_body po db req =
        Except.ok { status := 400, body := errBody "domainId is required" } := by
      rw [get_records_body]
      simp only [hdom, pyFalsyOpt, if_true]
    rw [get_records]
    exact runHandler_ok_response db _ _ hc hbody
  · intro hdom hcst
    have hbody : get_records_body po db req =
        Except.ok { status := 400, body := errBody "contest is required" } := by
      rw [get_records_body]
      simp only [hdom, Bool.false_eq_true, if_false]
      simp only [hcst, pyFalsyOpt, if_true]
    rw [get_records]
    exact runHandler_ok_response db _ _ hc hbody
  · intro hid
    have hbody : get_user_body db req =
        Except.ok { status := 400, body := errBody "_id is required" } := by
      rw [get_user_body]
      simp only [hid, pyFalsyOpt, if_true]
    rw [get_user]
    exact runHandler_ok_response db _ _ hc hbody
  · intro hdom
    have hbody : get_user_groups_body db req =
        Except.ok { status := 400, body := errBody "domainId is required" } := by
      rw [get_user_groups_body]
      simp only [hdom, pyFalsyOpt, if_true]
    rw [get_user_groups]
    exact runHandler_ok_response db _ _ hc hbody

theorem missing_param_400_after_conn_witness :
    (get_user { conn_ok := true, document := [], record := [], user := [], userGroup := [] }
        { args := [] }).response =
      { status := 400, body := errBody "_id is required" } :=
  (missing_param_400_after_conn ypNoneEx (fun _ => none)
    { conn_ok := true, document := [], record := [], user := [], userGroup := [] }
    { args := [] } rfl).2.2.2.1 rfl

/-- C6: on the user route (connection up, `_id` supplied non-empty): a
non-digit `_id` answers 400 `{"error": "_id must be an integer"}`; an
all-digit `_id` answers 404 `{"error": "User not found"}` when no user
carries that numeric key, and 200 `{"uname": <name>}` when the lookup
finds a user whose `uname` is that name. -/
theorem user_route_contract (db : DB) (req : Request) (s : String)
    (hc : db.conn_ok = true)
    (harg : req.get "_id" = some s) (hne : s ≠ "") :
    (pyIsDigitStr s = false →
      (get_user db req).response =
        { status := 400, body := errBody "_id must be an integer" }) ∧
    (pyIsDigitStr s = true →
      (db.user.find? (fun d => dGet d "_id" == some (BVal.int (pyIntOfDigits s))) = none →
        (get_user db req).response =
          { status := 404, body := errBody "User not found" }) ∧
      (∀ u name,
        db.user.find? (fun d => dGet d "_id" == some (BVal.int (pyIntOfDigits s))) = some u →
        dGet u "uname" = some (BVal.str name) →
        (get_user db req).response =
          { status := 200, body := BVal.doc [("uname", BVal.str name)] })) := by
  have hfalsy : pyFalsyOpt (some s) = false := by
    rw [pyFalsyOpt]
    exact isEmpty_false_of_ne_empty s hne
  constructor
  · intro hdig
    have hbody : get_user_body db req =
        Except.ok { status := 400, body := errBody "_id must be an integer" } := by
      rw [get_user_body]
      simp only [hfalsy, Bool.false_eq_true, if_false, harg, Option.getD_some, hdig,
        Bool.not_false, if_true]
    rw [get_user]
    exact runHandler_ok_response db _ _ hc hbody
  · intro hdig
    constructor
    · intro hfind
      have hbody : get_user_body db req =
          Except.ok { status := 404, body := errBody "User not found" } := by
        rw [get_user_body]
        simp only [hfalsy, Bool.false_eq_true, if_false, harg, Option.getD_some, hdig,
          Bool.not_true, hfind]
      rw [get_user]
      exact runHandler_ok_response db _ _ hc hbody
    · intro u name hfind huname
      have hun : getField (projectDoc ["uname"] u) "uname" = Except.ok (BVal.str name) := by
        rw [getField_projectDoc ["uname"] u "uname" (by decide), getField, huname]
      have hbody : get_user_body db req =
          Except.ok { status := 200, body := BVal.doc [("uname", BVal.str name)] } := by
        rw [get_user_body]
        simp only [hfalsy, Bool.false_eq_true, if_false, harg, Option.getD_some, hdig,
          Bool.not_true, hfind, hun]
      rw [get_user]
      exact runHandler_ok_response db _ _ hc hbody

theorem user_route_contract_witness :
    pyIsDigitStr "42" = true ∧
    (get_user
        { conn_ok := true, document := [], record := [],
          user := [[("_id", BVal.int 42), ("uname", BVal.str "alice")]], userGroup := [] }
        { args := [("_id", "42")] }).response =
      { status := 200, body := BVal.doc [("uname", BVal.str "alice")] } := by
  refine ⟨by decide, ?_⟩
  exact ((user_route_contract
      { conn_ok := true, document := [], record := [],
        user := [[("_id", BVal.int 42), ("uname", BVal.str "alice")]], userGroup := [] }
      { args := [("_id", "42")] } "42" rfl rfl (by decide)).2 (by decide)).2
    [("_id", BVal.int 42), ("uname", BVal.str "alice")] "alice" (by decide) (by decide)

/-- C7: on the record route (connection up, both parameters supplied
non-empty): a `contest` value the ObjectId constructor rejects answers
400 `{"error": "Invalid contest ObjectId"}`; a well-formed one with no
matching records answers 200 with the empty JSON array — never 404. -/
theorem record_route_contract (po : String → Option String)
    (db : DB) (req : Request) (dom s : String)
    (hc : db.conn_ok = true)
    (hd : req.get "domainId" = some dom) (hdom : dom ≠ "")
    (hcst : req.get "contest" = some s) (hs : s ≠ "") :
    (po s = none →
      (get_records po db req).response =
        { status := 400, body := errBody "Invalid contest ObjectId" }) ∧
    (∀ hx, po s = some hx →
      db.record.filter (recordFilter dom hx) = [] →
      (get_records po db req).response = { status := 200, body := BVal.arr [] }) := by
  have hdfalsy : pyFalsyOpt (some dom) = false := by
    rw [pyFalsyOpt]
    exact isEmpty_false_of_ne_empty dom hdom
  have hcfalsy : pyFalsyOpt (some s) = false := by
    rw [pyFalsyOpt]
    exact isEmpty_false_of_ne_empty s hs
  constructor
  · intro hpo
    have hbody : get_records_body po db req =
        Except.ok { status := 400, body := errBody "Invalid contest ObjectId" } := by
      rw [get_records_body]
      simp only [hd, hcst, hdfalsy, hcfalsy, Bool.false_eq_true, if_false,
        Option.getD_some, hpo]
    rw [get_records]
    exact runHandler_ok_response db _ _ hc hbody
  · intro hx hpo hempty
    have hbody : get_records_body po db req =
        Except.ok { status := 200, body := BVal.arr [] } := by
      rw [get_records_body]
      simp only [hd, hcst, hdfalsy, hcfalsy, Bool.false_eq_true, if_false,
        Option.getD_some, hpo, hempty, List.map_nil, mapME]
    rw [get_records]
    exact runHandler_ok_response db _ _ hc hbody

theorem record_route_contract_witness :
    (get_records (fun x => if x = "aaaaaaaaaaaaaaaaaaaaaaaa" then some x else none)
        { conn_ok := true, document := [], record := [], user := [], userGroup := [] }
        { args := [("domainId", "d"), ("contest", "zz")] }).response =
      { status := 400, body := errBody "Invalid contest ObjectId" } :=
  (record_route_contract (fun x => if x = "aaaaaaaaaaaaaaaaaaaaaaaa" then some x else none)
    { conn_ok := true, document := [], record := [], user := [], userGroup := [] }
    { args := [("domainId", "d"), ("contest", "zz")] } "d" "zz" rfl rfl (by decide)
    rfl (by decide)).1 (by decide)

/-- C9: each handler is a pure function of the parsers, the database
state (contents in their stored order, plus reachability) and the request
parameters, so two requests with identical parameters against an identical
database produce the same status code and byte-identical JSON bodies. -/
theorem handlers_deterministic
    (yp yp2 : String → Except String Yaml) (po po2 : String → Option String)
    (db db2 : DB) (req req2 : Request)
    (h1 : yp = yp2) (h2 : po = po2) (h3 : db = db2) (h4 : req = req2) :
    ((get_documents yp db req).response.status = (get_documents yp2 db2 req2).response.status ∧
     jsonEncode (get_documents yp db req).response.body =
       jsonEncode (get_documents yp2 db2 req2).response.body) ∧
    ((get_records po db req).response.status = (get_records po2 db2 req2).response.status ∧
     jsonEncode (get_records po db req).response.body =
       jsonEncode (get_records po2 db2 req2).response.body) ∧
    ((get_user db req).response.status = (get_user db2 req2).response.status ∧
     jsonEncode (get_user db req).response.body =
       jsonEncode (get_user db2 req2).response.body) ∧
    ((get_user_groups db req).response.status = (get_user_groups db2 req2).response.status ∧
     jsonEncode (get_user_groups db req).response.body =
       jsonEncode (get_user_groups db2 req2).response.body) := by
  subst h1 h2 h3 h4
  exact ⟨⟨rfl, rfl⟩, ⟨rfl, rfl⟩, ⟨rfl, rfl⟩, ⟨rfl, rfl⟩⟩

theorem handlers_deterministic_witness :
    jsonEncode (get_user
        { conn_ok := true, document := [], record := [],
          user := [[("_id", BVal.int 42), ("uname", BVal.str "alice")]], userGroup := [] }
        { args := [("_id", "42")] }).response.body =
      jsonEncode (get_user
        { conn_ok := true, document := [], record := [],
          user := [[("_id", BVal.int 42), ("uname", BVal.str "alice")]], userGroup := [] }
        { args := [("_id", "42")] }).response.body :=
  ((handlers_deterministic ypNoneEx ypNoneEx (fun _ => none) (fun _ => none)
    { conn_ok := true, document := [], record := [],
      user := [[("_id", BVal.int 42), ("uname", BVal.str "alice")]], userGroup := [] }
    { conn_ok := true, document := [], record := [],
      user := [[("_id", BVal.int 42), ("uname", BVal.str "alice")]], userGroup := [] }
    { args := [("_id", "42")] } { args := [("_id", "42")] }
    rfl rfl rfl rfl).2.2.1).2

theorem get_documents_30_eval (yp : String → Except String Yaml)
    (db : DB) (req : Request) (dom : String)
    (hc : db.conn_ok = true)
    (hd : req.get "domainId" = some dom) (hdom : dom ≠ "")
    (ht : pyIntArg (req.get "docType") = Except.ok 30)
    (hready : ∀ d ∈ db.document.filter (docMatches dom 30), doc30Ready d = true) :
    (get_documents yp db req).response =
      { status := 200,
        body := BVal.arr ((db.document.filter (docMatches dom 30)).map
          (fun d => BVal.doc (shape30item d))) } := by
  have hdfalsy : pyFalsyOpt (some dom) = false := by
    rw [pyFalsyOpt]
    exact isEmpty_false_of_ne_empty dom hdom
  have h3030 : ((30 : Int) == 30) = true := by decide
  have hmap : mapME shape30 ((db.document.filter (docMatches dom 30)).map
      (projectDoc ["docId", "title", "beginAt", "pids"])) =
      Except.ok ((db.document.filter (docMatches dom 30)).map shape30item) :=
    mapME_map_ok shape30 shape30item (projectDoc ["docId", "title", "beginAt", "pids"]) _
      (fun d hdm => by rw [shape30_project]; exact shape30_ready d (hready d hdm))
  have hbody : get_documents_body yp db req =
      Except.ok { status := 200,
                  body := BVal.arr ((db.document.filter (docMatches dom 30)).map
                    (fun d => BVal.doc (shape30item d))) } := by
    rw [get_documents_body]
    simp only [hd, ht, hdfalsy, Bool.false_eq_true, if_false, Option.getD_some,
      h3030, if_true, findDocs, hmap, List.map_map, Function.comp_def]
  rw [get_documents]
  exact runHandler_ok_response db _ _ hc hbody

theorem get_documents_10_eval (yp : String → Except String Yaml)
    (db : DB) (req : Request) (dom : String)
    (hc : db.conn_ok = true)
    (hd : req.get "domainId" = some dom) (hdom : dom ≠ "")
    (ht : pyIntArg (req.get "docType") = Except.ok 10)
    (hready : ∀ d ∈ db.document.filter (docMatches dom 10), doc10Ready yp d = true) :
    (get_documents yp db req).response =
      { status := 200,
        body := BVal.arr ((db.document.filter (docMatches dom 10)).map
          (fun d => BVal.doc (shape10item yp d))) } := by
  have hdfalsy : pyFalsyOpt (some dom) = false := by
    rw [pyFalsyOpt]
    exact isEmpty_false_of_ne_empty dom hdom
  have h1030 : ((10 : Int) == 30) = false := by decide
  have h1010 : ((10 : Int) == 10) = true := by decide
  have hmap : mapME (shape10 yp) ((db.document.filter (docMatches dom 10)).map
      (projectDoc ["docId", "title", "pid", "config"])) =
      Except.ok ((db.document.filter (docMatches dom 10)).map (shape10item yp)) :=
    mapME_map_ok (shape10 yp) (shape10item yp) (projectDoc ["docId", "title", "pid", "config"]) _
      (fun d hdm => by rw [shape10_project]; exact shape10_ready yp d (hready d hdm))
  have hbody : get_documents_body yp db req =
      Except.ok { status := 200,
                  body := BVal.arr ((db.document.filter (docMatches dom 10)).map
                    (fun d => BVal.doc (shape10item yp d))) } := by
    rw [get_documents_body]
    simp only [hd, ht, hdfalsy, Bool.false_eq_true, if_false, Option.getD_some,
      h1030, h1010, if_true, findDocs, hmap, List.map_map, Function.comp_def]
  rw [get_documents]
  exact runHandler_ok_response db _ _ hc hbody

theorem doc30Ready_title (d : Doc) (h : doc30Ready d = true) :
    ∃ t, dGet d "title" = some (BVal.str t) := by
  rw [doc30Ready] at h
  simp only [Bool.and_eq_true] at h
  obtain ⟨⟨⟨_, htitle⟩, _⟩, _⟩ := h
  cases hv : dGet d "title" with
  | none => rw [hv] at htitle; exact Bool.noConfusion htitle
  | some v =>
      cases v with
      | str t => exact ⟨t, rfl⟩
      | null => rw [hv] at htitle; exact Bool.noConfusion htitle
      | bool b => rw [hv] at htitle; exact Bool.noConfusion htitle
      | int n => rw [hv] at htitle; exact Bool.noConfusion htitle
      | oid x => rw [hv] at htitle; exact Bool.noConfusion htitle
      | date m => rw [hv] at htitle; exact Bool.noConfusion htitle
      | arr xs => rw [hv] at htitle; exact Bool.noConfusion htitle
      | doc fs => rw [hv] at htitle; exact Bool.noConfusion htitle

/-- C5: with `docType=30` (connection up, `domainId` matching, documents
well-typed per the data model), the route answers 200 and every item has
`_id` and `docId` as strings (`docId` coerced through `str` whatever is
stored), `title` the stored string, `beginAt` the raw stored value or
null when absent, and `pids` always a list — the stored one, or `[]` when
the field is absent. -/
theorem docType30_item_shape (yp : String → Except String Yaml)
    (db : DB) (req : Request) (dom : String)
    (hc : db.conn_ok = true)
    (hd : req.get "domainId" = some dom) (hdom : dom ≠ "")
    (ht : pyIntArg (req.get "docType") = Except.ok 30)
    (hready : ∀ d ∈ db.document.filter (docMatches dom 30), doc30Ready d = true) :
    (get_documents yp db req).response =
      { status := 200,
        body := BVal.arr ((db.document.filter (docMatches dom 30)).map
          (fun d => BVal.doc (shape30item d))) } ∧
    ∀ d ∈ db.document.filter (docMatches dom 30),
      (∃ s2, dGet (shape30item d) "_id" = some (BVal.str s2)) ∧
      (∃ s2, dGet (shape30item d) "docId" = some (BVal.str s2)) ∧
      (∃ t, dGet d "title" = some (BVal.str t) ∧
        dGet (shape30item d) "title" = some (BVal.str t)) ∧
      dGet (shape30item d) "beginAt" = some ((dGet d "beginAt").getD BVal.null) ∧
      (dGet d "pids" = none → dGet (shape30item d) "pids" = some (BVal.arr [])) ∧
      (∀ v, dGet d "pids" = some v → dGet (shape30item d) "pids" = some v) := by
  refine ⟨get_documents_30_eval yp db req dom hc hd hdom ht hready, ?_⟩
  intro d hdm
  obtain ⟨t, htv⟩ := doc30Ready_title d (hready d hdm)
  refine ⟨⟨pyStr ((dGet d "_id").getD BVal.null), rfl⟩,
    ⟨pyStr ((dGet d "docId").getD BVal.null), rfl⟩,
    ⟨t, htv, ?_⟩, rfl, ?_, ?_⟩
  · have hbase : dGet (shape30item d) "title" = some ((dGet d "title").getD BVal.null) := rfl
    rw [hbase, htv, Option.getD_some]
  · intro hnone
    have hbase : dGet (shape30item d) "pids" = some ((dGet d "pids").getD (BVal.arr [])) := rfl
    rw [hbase, hnone, Option.getD_none]
  · intro v hv
    have hbase : dGet (shape30item d) "pids" = some ((dGet d "pids").getD (BVal.arr [])) := rfl
    rw [hbase, hv, Option.getD_some]

/-- Witness data: one contest-like document, `beginAt` absent. -/
def doc30W : Doc :=
  [("_id", BVal.oid "aaaaaaaaaaaaaaaaaaaaaaaa"), ("domainId", BVal.str "d"),
   ("docType", BVal.int 30), ("docId", BVal.oid "bbbbbbbbbbbbbbbbbbbbbbbb"),
   ("title", BVal.str "Contest"), ("pids", BVal.arr [BVal.int 1, BVal.int 2])]

theorem docType30_item_shape_witness :
    (get_documents ypNoneEx
        { conn_ok := true, document := [doc30W], record := [], user := [], userGroup := [] }
        { args := [("domainId", "d"), ("docType", "30")] }).response =
      { status := 200,
        body := BVal.arr [BVal.doc
          [("_id", BVal.str "aaaaaaaaaaaaaaaaaaaaaaaa"),
           ("docId", BVal.str "bbbbbbbbbbbbbbbbbbbbbbbb"),
           ("title", BVal.str "Contest"),
           ("beginAt", BVal.null),
           ("pids", BVal.arr [BVal.int 1, BVal.int 2])]] } :=
  ((docType30_item_shape ypNoneEx
      { conn_ok := true, document := [doc30W], record := [], user := [], userGroup := [] }
      { args := [("domainId", "d"), ("docType", "30")] } "d"
      rfl rfl (by decide) (by decide) (by decide)).1).trans (by decide)

theorem doc10Ready_fields (yp : String → Except String Yaml) (d : Doc)
    (h : doc10Ready yp d = true) :
    (∃ iv, dGet d "_id" = some iv) ∧ (∃ dv, dGet d "docId" = some dv) ∧
    (∃ tv, dGet d "title" = some tv) ∧ (∃ pv, dGet d "pid" = some pv) ∧
    (∃ s, dGet d "config" = some (BVal.str s)) := by
  rw [doc10Ready] at h
  simp only [Bool.and_eq_true] at h
  obtain ⟨⟨⟨⟨hid, hdocId⟩, htitle⟩, hpid⟩, hcfg⟩ := h
  refine ⟨Option.isSome_iff_exists.mp hid, ?_, ?_, ?_, ?_⟩
  · cases hv : dGet d "docId" with
    | none => rw [hv] at hdocId; exact Bool.noConfusion hdocId
    | some v => exact ⟨v, rfl⟩
  · cases hv : dGet d "title" with
    | none => rw [hv] at htitle; exact Bool.noConfusion htitle
    | some v => exact ⟨v, rfl⟩
  · cases hv : dGet d "pid" with
    | none => rw [hv] at hpid; exact Bool.noConfusion hpid
    | some v => exact ⟨v, rfl⟩
  · cases hv : dGet d "config" with
    | none => rw [hv] at hcfg; exact Bool.noConfusion hcfg
    | some v =>
        cases v with
        | str s => exact ⟨s, rfl⟩
        | null => rw [hv] at hcfg; exact Bool.noConfusion hcfg
        | bool b => rw [hv] at hcfg; exact Bool.noConfusion hcfg
        | int n => rw [hv] at hcfg; exact Bool.noConfusion hcfg
        | oid x => rw [hv] at hcfg; exact Bool.noConfusion hcfg
        | date m => rw [hv] at hcfg; exact Bool.noConfusion hcfg
        | arr xs => rw [hv] at hcfg; exact Bool.noConfusion hcfg
        | doc fs => rw [hv] at hcfg; exact Bool.noConfusion hcfg

/-- Parser stub for the C1 counterexample: the config text "subtasks:"
parses successfully to a mapping whose `subtasks` value is null. -/
def ypCex : String → Except String Yaml :=
  fun s =>
    if s = "subtasks:" then Except.ok (Yaml.map [("subtasks", Yaml.null)])
    else Except.error "parse error"

/-- A problem-like document whose config carries a null `subtasks`. -/
def docCex : Doc :=
  [("_id", BVal.oid "aaaaaaaaaaaaaaaaaaaaaaaa"), ("domainId", BVal.str "d"),
   ("docType", BVal.int 10), ("docId", BVal.int 7), ("title", BVal.str "T"),
   ("pid", BVal.str "P1"), ("config", BVal.str "subtasks:")]

/-- Database holding only the null-subtasks document. -/
def dbCex : DB :=
  { conn_ok := true, document := [docCex], record := [], user := [], userGroup := [] }

/-- The matching docType=10 request. -/
def reqD10Cex : Request := { args := [("domainId", "d"), ("docType", "10")] }

/-- C1 counterexample: a matched document whose config parses successfully
to a mapping with a null `subtasks` value is not treated as having an
empty subtasks list — iterating `None` raises a TypeError that escapes the
per-item handler, and the whole request fails with 500 instead of emitting
the item. -/
theorem subtasks_null_aborts_request :
    ypCex "subtasks:" = Except.ok (Yaml.map [("subtasks", Yaml.null)]) ∧
    (get_documents ypCex dbCex reqD10Cex).response =
      { status := 500, body := errBody "'NoneType' object is not iterable" } ∧
    (get_documents ypCex dbCex reqD10Cex).response.status ≠ 200 :=
  ⟨by decide, by decide, by decide⟩

/-- C1 (amended): with `docType=10` (connection up, `domainId` matching,
documents carrying the emitted fields and a string config, and every
successfully parsed config benign — falsy, or a mapping whose `subtasks`
key is absent or a list of mappings with integer-or-absent scores), the
route answers 200 and each item carries `_id` as a string, `docId`,
`title` and `pid` as stored, no `error` field, and `score` equal to the
exact sum of the subtask scores with absent scores counted as 0 and an
absent `subtasks` key as the empty list.  A present-but-null `subtasks`
is excluded: it aborts the request with 500 (see the counterexample). -/
theorem docType10_score_sum_amended (yp : String → Except String Yaml)
    (db : DB) (req : Request) (dom : String)
    (hc : db.conn_ok = true)
    (hd : req.get "domainId" = some dom) (hdom : dom ≠ "")
    (ht : pyIntArg (req.get "docType") = Except.ok 10)
    (hready : ∀ d ∈ db.document.filter (docMatches dom 10), doc10Ready yp d = true) :
    (get_documents yp db req).response =
      { status := 200,
        body := BVal.arr ((db.document.filter (docMatches dom 10)).map
          (fun d => BVal.doc (shape10item yp d))) } ∧
    ∀ d ∈ db.document.filter (docMatches dom 10), ∀ s cfg,
      dGet d "config" = some (BVal.str s) → yp s = Except.ok cfg →
      dGet (shape10item yp d) "score" = some (BVal.int (specSubtaskSum cfg)) ∧
      dGet (shape10item yp d) "_id" =
        some (BVal.str (pyStr ((dGet d "_id").getD BVal.null))) ∧
      dGet (shape10item yp d) "docId" = dGet d "docId" ∧
      dGet (shape10item yp d) "title" = dGet d "title" ∧
      dGet (shape10item yp d) "pid" = dGet d "pid" ∧
      dGet (shape10item yp d) "error" = none := by
  refine ⟨get_documents_10_eval yp db req dom hc hd hdom ht hready, ?_⟩
  intro d hdm s cfg hcs hyp
  obtain ⟨_, ⟨dv, hdv⟩, ⟨tv, htv⟩, ⟨pv, hpv⟩, _⟩ :=
    doc10Ready_fields yp d (hready d hdm)
  have hitem : shape10item yp d = item10ok d (specSubtaskSum cfg) := by
    simp only [shape10item, hcs, hyp]
  rw [hitem]
  refine ⟨rfl, rfl, ?_, ?_, ?_, rfl⟩
  · have hbase : dGet (item10ok d (specSubtaskSum cfg)) "docId" =
        some ((dGet d "docId").getD BVal.null) := rfl
    rw [hbase, hdv, Option.getD_some]
  · have hbase : dGet (item10ok d (specSubtaskSum cfg)) "title" =
        some ((dGet d "title").getD BVal.null) := rfl
    rw [hbase, htv, Option.getD_some]
  · have hbase : dGet (item10ok d (specSubtaskSum cfg)) "pid" =
        some ((dGet d "pid").getD BVal.null) := rfl
    rw [hbase, hpv, Option.getD_some]

/-- Parser stub for the docType=10 witnesses: "cfgA" parses to two
subtasks (scores 40 and absent), anything else fails to parse. -/
def ypWEx : String → Except String Yaml :=
  fun s =>
    if s = "cfgA" then
      Except.ok (Yaml.map [("subtasks",
        Yaml.list [Yaml.map [("score", Yaml.int 40)], Yaml.map [("note", Yaml.str "x")]])])
    else Except.error "bad yaml"

/-- A problem-like document with a benign config. -/
def doc10W : Doc :=
  [("_id", BVal.oid "cccccccccccccccccccccccc"), ("domainId", BVal.str "d"),
   ("docType", BVal.int 10), ("docId", BVal.int 7), ("title", BVal.str "Prob"),
   ("pid", BVal.str "P1"), ("config", BVal.str "cfgA")]

theorem docType10_score_sum_amended_witness :
    (get_documents ypWEx
        { conn_ok := true, document := [doc10W], record := [], user := [], userGroup := [] }
        { args := [("domainId", "d"), ("docType", "10")] }).response =
      { status := 200,
        body := BVal.arr [BVal.doc
          [("_id", BVal.str "cccccccccccccccccccccccc"), ("docId", BVal.int 7),
           ("title", BVal.str "Prob"), ("pid", BVal.str "P1"),
           ("score", BVal.int 40)]] } :=
  ((docType10_score_sum_amended ypWEx
      { conn_ok := true, document := [doc10W], record := [], user := [], userGroup := [] }
      { args := [("domainId", "d"), ("docType", "10")] } "d"
      rfl rfl (by decide) (by decide) (by decide)).1).trans (by decide)

/-- C2: with `docType=10` as above, a matched document whose config fails
to parse does not abort the request: every matched document still
contributes exactly one item, the request answers 200, and the item for
each failing document keeps the same shape with `score` 0 and an added
`error` field equal to "Invalid config format". -/
theorem docType10_parse_error_annotates (yp : String → Except String Yaml)
    (db : DB) (req : Request) (dom : String)
    (hc : db.conn_ok = true)
    (hd : req.get "domainId" = some dom) (hdom : dom ≠ "")
    (ht : pyIntArg (req.get "docType") = Except.ok 10)
    (hready : ∀ d ∈ db.document.filter (docMatches dom 10), doc10Ready yp d = true) :
    (get_documents yp db req).response =
      { status := 200,
        body := BVal.arr ((db.document.filter (docMatches dom 10)).map
          (fun d => BVal.doc (shape10item yp d))) } ∧
    ∀ d ∈ db.document.filter (docMatches dom 10), ∀ s msg,
      dGet d "config" = some (BVal.str s) → yp s = Except.error msg →
      dGet (shape10item yp d) "score" = some (BVal.int 0) ∧
      dGet (shape10item yp d) "error" = some (BVal.str "Invalid config format") ∧
      dGet (shape10item yp d) "_id" =
        some (BVal.str (pyStr ((dGet d "_id").getD BVal.null))) ∧
      dGet (shape10item yp d) "docId" = dGet d "docId" ∧
      dGet (shape10item yp d) "title" = dGet d "title" ∧
      dGet (shape10item yp d) "pid" = dGet d "pid" := by
  refine ⟨get_documents_10_eval yp db req dom hc hd hdom ht hready, ?_⟩
  intro d hdm s msg hcs hyp
  obtain ⟨_, ⟨dv, hdv⟩, ⟨tv, htv⟩, ⟨pv, hpv⟩, _⟩ :=
    doc10Ready_fields yp d (hready d hdm)
  have hitem : shape10item yp d = item10err d := by
    simp only [shape10item, hcs, hyp]
  rw [hitem]
  refine ⟨rfl, rfl, rfl, ?_, ?_, ?_⟩
  · have hbase : dGet (item10err d) "docId" =
        some ((dGet d "docId").getD BVal.null) := rfl
    rw [hbase, hdv, Option.getD_some]
  · have hbase : dGet (item10err d) "title" =
        some ((dGet d "title").getD BVal.null) := rfl
    rw [hbase, htv, Option.getD_some]
  · have hbase : dGet (item10err d) "pid" =
        some ((dGet d "pid").getD BVal.null) := rfl
    rw [hbase, hpv, Option.getD_some]

/-- A problem-like document whose config does not parse. -/
def doc10Bad : Doc :=
  [("_id", BVal.oid "dddddddddddddddddddddddd"), ("domainId", BVal.str "d"),
   ("docType", BVal.int 10), ("docId", BVal.int 8), ("title", BVal.str "Broken"),
   ("pid", BVal.str "P2"), ("config", BVal.str "oops")]

theorem docType10_parse_error_annotates_witness :
    (get_documents ypWEx
        { conn_ok := true, document := [doc10Bad, doc10W], record := [], user := [], userGroup := [] }
        { args := [("domainId", "d"), ("docType", "10")] }).response =
      { status := 200,
        body := BVal.arr
          [BVal.doc
            [("_id", BVal.str "dddddddddddddddddddddddd"), ("docId", BVal.int 8),
             ("title", BVal.str "Broken"), ("pid", BVal.str "P2"),
             ("score", BVal.int 0), ("error", BVal.str "Invalid config format")],
           BVal.doc
            [("_id", BVal.str "cccccccccccccccccccccccc"), ("docId", BVal.int 7),
             ("title", BVal.str "Prob"), ("pid", BVal.str "P1"),
             ("score", BVal.int 40)]] } :=
  ((docType10_parse_error_annotates ypWEx
      { conn_ok := true, document := [doc10Bad, doc10W], record := [], user := [], userGroup := [] }
      { args := [("domainId", "d"), ("docType", "10")] } "d"
      rfl rfl (by decide) (by decide) (by decide)).1).trans (by decide)
